import Mathlib

/-! # Dutch Language Learning API: formal model

A shallow embedding of the original logic of `src/main.py`: the structured
output schema (`DutchVocabulary`, `DutchParagraph`), the text formatting and
format dispatch of the `/ask` endpoint, the constant usage text of the root
endpoint, and the startup knowledge-base ingestion gate. External
collaborators (the agent orchestrator, the web framework's request
validation) appear as parameters or are modelled from their documented
behavior where a doc comment says so. -/

namespace DutchApi

/-- Embeds the pydantic model `DutchVocabulary` (src/main.py, lines 99-102):
a Dutch word with its English translation, both required fields. -/
structure DutchVocabulary where
  dutch : String
  english : String

/-- Embeds the pydantic model `DutchParagraph` (src/main.py, lines 105-126):
the structured output schema the orchestrator is asked to produce. All five
fields are required; no length constraint on the lists is declared. -/
structure DutchParagraph where
  dutch_sentences : List String
  english_translations : List String
  topic : String
  level : String
  vocabulary : List DutchVocabulary

/-- Python string join, `sep.join(xs)`: the elements of `xs` concatenated
with `sep` between consecutive elements and nothing added at either end. -/
def pyJoin (sep : String) : List String → String
  | [] => ""
  | [s] => s
  | s :: t :: rest => s ++ sep ++ pyJoin sep (t :: rest)

/-- Python `str.lower`, as applied in the handler. For deciding equality with
the ASCII literal "json" the ASCII per-character lowering below coincides
with Python's Unicode lowering: the only characters Python lowers to one of
j, s, o, n are the ASCII uppercase J, S, O, N. -/
def pyLower (s : String) : String := String.mk (s.data.map Char.toLower)

/-- Embeds the vocabulary loop of `ask` (src/main.py, lines 288-289): for
each entry, in order, append the line dash, space, the Dutch word, colon,
space, the English word, newline. -/
def vocabLines (vocabulary : List DutchVocabulary) : String :=
  vocabulary.foldl
    (fun acc word => acc ++ ("- " ++ word.dutch ++ ": " ++ word.english ++ "\n")) ""

/-- Embeds the text branch of `ask` (src/main.py, lines 280-289): Dutch
header, the Dutch sentences joined with ". " plus ".\n\n", English header,
the translations likewise, vocabulary header, vocabulary lines. -/
def formatText (content : DutchParagraph) : String :=
  "**Dutch Paragraph (5 sentences):**\n"
    ++ (pyJoin ". " content.dutch_sentences ++ ".\n\n")
    ++ "**English Translation:**\n"
    ++ (pyJoin ". " content.english_translations ++ ".\n\n")
    ++ "**Key Vocabulary:**\n"
    ++ vocabLines content.vocabulary

/-- The two shapes of response the `ask` handler body can return: the
structured object itself (JSON mode) or a plain-text rendering. -/
inductive AskResponse where
  | jsonResp (content : DutchParagraph)
  | textResp (body : String)

/-- Embeds the format dispatch of `ask` (src/main.py, lines 271-291): JSON
mode exactly when `format.lower() == "json"`, otherwise the plain-text
rendering of the structured content. -/
def askCore (format : String) (content : DutchParagraph) : AskResponse :=
  if pyLower format = "json" then .jsonResp content
  else .textResp (formatText content)

/-- A failure raised by the external orchestration call `editor.run`. -/
structure OrchError where
  message : String

/-- The outcome of one request to `/ask` as seen by the client: a
client-error rejection, an unhandled propagated error, or a response. -/
inductive AskOutcome where
  | clientError
  | serverError (e : OrchError)
  | ok (r : AskResponse)

/-- The declared default of the `format` query parameter
(src/main.py, line 261). -/
def defaultFormat : String := "text"

/-- The `/ask` request pipeline. The handler body (run the orchestrator on
the query, then dispatch on the format) is embedded from src/main.py, lines
258-291, which installs no exception handling, so an orchestrator error
short-circuits to `serverError` untouched. Modelled from the spec: the web
framework rejects a request whose required `query` parameter is missing with
a client error before the handler body runs; that built-in validation lives
in the external framework, not in this repository. The second component of
the result records the queries passed to the external orchestrator `run`. -/
def handleAsk (run : String → Except OrchError DutchParagraph)
    (query : Option String) (format : Option String) : AskOutcome × List String :=
  match query with
  | none => (.clientError, [])
  | some q =>
    match run q with
    | .error e => (.serverError e, [q])
    | .ok content => (.ok (askCore (format.getD defaultFormat) content), [q])

/-- Embeds `root` (src/main.py, lines 243-255): the constant usage text
returned by GET /. The handler takes no request input. -/
def root : String :=
  "\n    Dutch Language Learning API\n    --------------------------\n    Access the API at /ask with a \x27query\x27 parameter.\n    Example: /ask?query=\"Tell me a story about a cat in Dutch. I am a beginner.\"\n    \n    Options:\n    - format: Set to \"json\" for JSON output (default is \"text\")\n    \n    Documentation available at /docs\n    "

/-- Embeds the module-level ingestion gate (src/main.py, lines 141-144):
given the value of the environment variable IS_KNOWLEDGE_BASE_LOADED, if it
differs from "true" the knowledge base is loaded and the variable is set to
"true". Returns the new variable value and whether the load ran. -/
def startupIngest (flag : Option String) : Option String × Bool :=
  if flag ≠ some "true" then (some "true", true) else (flag, false)

/-- The spec's description of the sentence rendering: the sentences joined
with ". " and a single trailing period (so the empty list renders as "."). -/
def joinWithPeriods : List String → String
  | [] => "."
  | [s] => s ++ "."
  | s :: t :: rest => s ++ ". " ++ joinWithPeriods (t :: rest)

/-- The vocabulary rendering asserted by the claim wording: one line per
entry, in input order, each line exactly the Dutch word, colon, space, the
English word. -/
def vocabLinesClaimed : List DutchVocabulary → String
  | [] => ""
  | w :: ws => w.dutch ++ ": " ++ w.english ++ "\n" ++ vocabLinesClaimed ws

/-- The vocabulary rendering the code actually produces, written as explicit
structural recursion: one line per entry, in input order, each line the
dash-space marker, the Dutch word, colon, space, the English word. -/
def vocabLinesDashed : List DutchVocabulary → String
  | [] => ""
  | w :: ws => "- " ++ w.dutch ++ ": " ++ w.english ++ "\n" ++ vocabLinesDashed ws

theorem pyJoin_append_period (xs : List String) :
    pyJoin ". " xs ++ "." = joinWithPeriods xs := by
  match xs with
  | [] => rfl
  | [s] => rfl
  | s :: t :: rest =>
    simp only [pyJoin, joinWithPeriods, String.append_assoc,
      pyJoin_append_period (t :: rest)]

/-- C1: for every structured result, text-mode output of `/ask` joins
`dutch_sentences` with ". " and appends a single trailing ".", and does the
same, identically, for `english_translations`: the two middle sections of
the rendered text are exactly `joinWithPeriods` of the respective lists. -/
theorem text_mode_joins_with_periods (c : DutchParagraph) :
    formatText c =
      "**Dutch Paragraph (5 sentences):**\n"
        ++ (joinWithPeriods c.dutch_sentences ++ "\n\n")
        ++ "**English Translation:**\n"
        ++ (joinWithPeriods c.english_translations ++ "\n\n")
        ++ "**Key Vocabulary:**\n"
        ++ vocabLines c.vocabulary := by
  have hsplit : (".\n\n" : String) = "." ++ "\n\n" := rfl
  simp only [formatText, hsplit, ← pyJoin_append_period, String.append_assoc]

/-- C2 as stated is false: the code puts a "- " marker in front of each
vocabulary line, so the single entry (kat, cat) renders as the line
"- kat: cat", not "kat: cat". -/
theorem vocab_line_has_dash_marker :
    vocabLines [⟨"kat", "cat"⟩] = "- kat: cat\n"
      ∧ vocabLines [⟨"kat", "cat"⟩] ≠ vocabLinesClaimed [⟨"kat", "cat"⟩] := by
  exact ⟨rfl, by decide⟩

/-- C2 (amended): text-mode output renders exactly one line per vocabulary
entry, in input order, each line being dash, space, the Dutch word, colon,
space, the English translation. -/
theorem vocab_lines_one_per_entry (v : List DutchVocabulary) :
    vocabLines v = vocabLinesDashed v := by
  have gen : ∀ (l : List DutchVocabulary) (acc : String),
      l.foldl
          (fun acc word => acc ++ ("- " ++ word.dutch ++ ": " ++ word.english ++ "\n"))
          acc
        = acc ++ vocabLinesDashed l := by
    intro l
    induction l with
    | nil => intro acc; simp [vocabLinesDashed]
    | cons w ws ih =>
      intro acc
      rw [List.foldl_cons, ih]
      simp [vocabLinesDashed, String.append_assoc]
  simpa [vocabLines] using gen v ""

/-- C3: the format selector is matched case-insensitively against "json":
every selector whose lowercasing differs from "json" (the declared default
"text" included) yields the text rendering, and JSON mode is chosen exactly
when the lowercased selector equals "json". -/
theorem format_dispatch_case_insensitive (format : String) (c : DutchParagraph) :
    (pyLower format ≠ "json" → askCore format c = .textResp (formatText c))
      ∧ (pyLower format = "json" → askCore format c = .jsonResp c)
      ∧ askCore defaultFormat c = .textResp (formatText c) := by
  refine ⟨fun h => ?_, fun h => ?_, ?_⟩
  · simp [askCore, h]
  · simp [askCore, h]
  · have h : pyLower defaultFormat ≠ "json" := by decide
    simp [askCore, h]

/-- C3 witness: the selector "XML" lowercases to "xml", so the endpoint
produces the text rendering for it. -/
theorem format_dispatch_case_insensitive_witness :
    pyLower "XML" ≠ "json"
      ∧ askCore "XML" ⟨["Hoi"], ["Hi"], "groet", "beginner", []⟩
          = .textResp (formatText ⟨["Hoi"], ["Hi"], "groet", "beginner", []⟩) :=
  ⟨by decide,
    (format_dispatch_case_insensitive "XML"
      ⟨["Hoi"], ["Hi"], "groet", "beginner", []⟩).1 (by decide)⟩

/-- C4: whenever the format selector lowercases to "json", `/ask` returns
the orchestrator's structured object as-is: the response is exactly the
`jsonResp` constructor applied to the unchanged record. -/
theorem json_mode_returns_content_unchanged (format : String) (c : DutchParagraph)
    (h : pyLower format = "json") : askCore format c = .jsonResp c := by
  simp [askCore, h]

/-- C4 witness at the mixed-case selector "Json" and a concrete record. -/
theorem json_mode_returns_content_unchanged_witness :
    askCore "Json" ⟨["Hoi"], ["Hi"], "groet", "beginner", [⟨"kat", "cat"⟩]⟩
      = .jsonResp ⟨["Hoi"], ["Hi"], "groet", "beginner", [⟨"kat", "cat"⟩]⟩ :=
  json_mode_returns_content_unchanged "Json"
    ⟨["Hoi"], ["Hi"], "groet", "beginner", [⟨"kat", "cat"⟩]⟩ (by decide)

/-- C5: a request to `/ask` with the query parameter missing produces a
client error, and the external orchestrator is never invoked: the recorded
call list is empty, for every orchestrator and every format value. -/
theorem missing_query_client_error (run : String → Except OrchError DutchParagraph)
    (format : Option String) :
    handleAsk run none format = (.clientError, []) := rfl

/-- C6: when the external orchestration call fails, the handler performs no
recovery: the error propagates out unchanged, no formatted response is
produced, and the only effect is the single orchestrator call itself. -/
theorem orchestrator_error_propagates (run : String → Except OrchError DutchParagraph)
    (q : String) (format : Option String) (e : OrchError) (h : run q = .error e) :
    handleAsk run (some q) format = (.serverError e, [q]) := by
  simp [handleAsk, h]

/-- C6 witness: an orchestrator that times out makes the handler surface
exactly that error. -/
theorem orchestrator_error_propagates_witness :
    handleAsk (fun _ => .error ⟨"model timeout"⟩) (some "a story") none
      = (.serverError ⟨"model timeout"⟩, ["a story"]) :=
  orchestrator_error_propagates (fun _ => .error ⟨"model timeout"⟩)
    "a story" none ⟨"model timeout"⟩ rfl

/-- C7: this layer never checks the five-sentence or alignment invariant:
for arbitrary lengths of the three lists (empty, fewer or more than five,
mismatched) and any format selector, the handler completes with a
successful response. -/
theorem no_shape_validation (ds et : List String) (t l : String)
    (v : List DutchVocabulary) (format : String)
    (run : String → Except OrchError DutchParagraph) (q : String)
    (h : run q = .ok ⟨ds, et, t, l, v⟩) :
    handleAsk run (some q) (some format)
      = (.ok (askCore format ⟨ds, et, t, l, v⟩), [q]) := by
  simp [handleAsk, h]

/-- C7 witness: three sentences against zero translations and an empty
vocabulary still format successfully in text mode. -/
theorem no_shape_validation_witness :
    handleAsk (fun _ => .ok ⟨["een", "twee", "drie"], [], "t", "l", []⟩)
        (some "q") (some "text")
      = (.ok (askCore "text" ⟨["een", "twee", "drie"], [], "t", "l", []⟩), ["q"]) :=
  no_shape_validation ["een", "twee", "drie"] [] "t" "l" [] "text"
    (fun _ => .ok ⟨["een", "twee", "drie"], [], "t", "l", []⟩) "q" rfl

/-- C8: at startup, ingestion runs if and only if the environment flag is
not set to "true"; afterwards the flag is always "true", so running the
gate again never ingests a second time. -/
theorem ingestion_gate_once (flag : Option String) :
    ((startupIngest flag).2 = true ↔ flag ≠ some "true")
      ∧ (startupIngest flag).1 = some "true"
      ∧ (startupIngest ((startupIngest flag).1)).2 = false := by
  by_cases h : flag = some "true" <;> simp [startupIngest, h]

/-- C9: the root endpoint returns a non-empty usage string; the handler
takes no request input, so the string is the same constant `root` on every
invocation. -/
theorem root_usage_nonempty : root ≠ "" := by decide

/-- C10: the text branch reads `dutch_sentences`, `english_translations`
and `vocabulary` with no guard: for every well-formed `DutchParagraph`
record, text mode yields the rendered text (total, no error branch), and
the rendering depends on exactly those three fields — two records agreeing
on them format identically whatever their topic and level. -/
theorem text_mode_total_on_records (c c' : DutchParagraph)
    (h1 : c.dutch_sentences = c'.dutch_sentences)
    (h2 : c.english_translations = c'.english_translations)
    (h3 : c.vocabulary = c'.vocabulary) :
    askCore "text" c = .textResp (formatText c)
      ∧ formatText c = formatText c' := by
  constructor
  · have h : pyLower "text" ≠ "json" := by decide
    simp [askCore, h]
  · simp [formatText, h1, h2, h3]

/-- C10 witness: two records sharing sentences, translations and vocabulary
but differing in topic and level render to the same text. -/
theorem text_mode_total_on_records_witness :
    askCore "text" ⟨["Hoi"], ["Hi"], "groet", "beginner", [⟨"kat", "cat"⟩]⟩
        = .textResp (formatText ⟨["Hoi"], ["Hi"], "groet", "beginner", [⟨"kat", "cat"⟩]⟩)
      ∧ formatText ⟨["Hoi"], ["Hi"], "groet", "beginner", [⟨"kat", "cat"⟩]⟩
        = formatText ⟨["Hoi"], ["Hi"], "anders", "advanced", [⟨"kat", "cat"⟩]⟩ :=
  text_mode_total_on_records
    ⟨["Hoi"], ["Hi"], "groet", "beginner", [⟨"kat", "cat"⟩]⟩
    ⟨["Hoi"], ["Hi"], "anders", "advanced", [⟨"kat", "cat"⟩]⟩ rfl rfl rfl

end DutchApi
